import Mathlib

/-!
Shallow embedding of `src/server.js` (twilio-sms-webhook-server): a Fastify
catch-all webhook handler that verifies Twilio signatures, derives an
argon2-hashed request identity, and writes an audit row plus a normalized
SMS row inside one better-sqlite3 transaction.

External collaborators (the Twilio signature validator, the argon2 hash and
the storage engine's transaction semantics) are not part of the repository;
where their behaviour decides a claim they are modelled from the spec, with
a doc comment saying so.
-/

set_option maxRecDepth 8192

namespace TwilioWebhook

/-- The six provider-defined body fields the handler consumes
(`SmsMessageSid`, `AccountSid`, `ApiVersion`, `From`, `To`, `Body`),
as produced by the (external) form-body parser. -/
structure RequestBody where
  SmsMessageSid : String
  AccountSid : String
  ApiVersion : String
  From : String
  To : String
  Body : String
deriving DecidableEq, Repr

/-- An inbound HTTP request as the handler sees it: a header map
(key-value pairs) and the parsed form body. -/
structure InboundRequest where
  headers : List (String × String)
  body : RequestBody
deriving DecidableEq, Repr

/-- The environment configuration the handler reads
(`TWILIO_AUTH_TOKEN`, `WEBHOOK_ENDPOINT`). -/
structure Config where
  TWILIO_AUTH_TOKEN : String
  WEBHOOK_ENDPOINT : String
deriving DecidableEq, Repr

/-- `request.headers[k]`: first value bound to key `k`, `none` when the
header is absent (JS `undefined`). -/
def headerLookup (headers : List (String × String)) (k : String) : Option String :=
  (headers.find? (fun kv => kv.1 == k)).map (·.2)

/-- JS template-literal rendering of a possibly-`undefined` value:
`${undefined}` renders as the string `undefined`. -/
def optStr : Option String → String
  | some s => s
  | none => "undefined"

/-- Boolean substring test, the embedding of JS `~hay.indexOf(needle)`
(truthy exactly when `needle` occurs contiguously in `hay`). -/
def strContains (hay needle : String) : Bool :=
  decide (needle.data <:+: hay.data)

/-- Line 112-114: `Object.keys(request.headers).some(k => ~k.indexOf('twilio'))` —
the header-gated routing condition. -/
def isTwilioRequest (headers : List (String × String)) : Bool :=
  headers.any (fun kv => strContains kv.1 "twilio")

/-- ASCII lowercasing of a string, character by character. -/
def lowerStr (s : String) : String :=
  ⟨s.data.map Char.toLower⟩

/-- Modelled from the spec: the HTTP server collaborator (out of scope per
§1) delivers header names to the handler in canonical lowercase form, which
is what makes the handler's substring match case-insensitive with respect
to the wire headers (§6). -/
def normalizeHeaders (headers : List (String × String)) : List (String × String) :=
  headers.map (fun kv => (lowerStr kv.1, kv.2))

/-- Case-insensitive substring match of `needle` in `hay`. -/
def ciContains (hay needle : String) : Bool :=
  decide ((lowerStr needle).data <:+: (lowerStr hay).data)

/-- Sorted parameter key/value rendering used by the provider's signature
scheme (keys in ascending order), part of the modelled verifier. -/
def renderSortedParams (p : RequestBody) : String :=
  "AccountSid" ++ p.AccountSid ++ "ApiVersion" ++ p.ApiVersion ++ "Body" ++ p.Body
    ++ "From" ++ p.From ++ "SmsMessageSid" ++ p.SmsMessageSid ++ "To" ++ p.To

/-- Modelled from the spec: the expected provider signature — an HMAC over
the canonical URL concatenated with sorted parameter key/value pairs, keyed
by the shared secret (§4.1). The HMAC lives in the external `twilio`
library; it is modelled as an injective encoding of its inputs. -/
def expectedTwilioSignature (authToken url : String) (params : RequestBody) : String :=
  "hmac-sha1[" ++ authToken ++ "|" ++ url ++ "|" ++ renderSortedParams params ++ "]"

/-- Modelled from the spec: `Twilio.validateRequest` (external `twilio`
library) recomputes the expected signature and compares it with the claimed
one; a missing signature header verifies as false (§4.1). -/
def validateRequest (authToken : String) (claimedSig : Option String) (url : String)
    (params : RequestBody) : Bool :=
  claimedSig == some (expectedTwilioSignature authToken url params)

/-- The argon2 options object passed at line 136-139: `{type: 2, hashLength: 384}`. -/
structure Argon2Options where
  type : Nat
  hashLength : Nat
deriving DecidableEq, Repr

/-- Modelled from the spec: the external argon2 library's memory-hard hash,
a deterministic, collision-resistant function of its cost options and the
preimage (§4.2); modelled as an injective encoding. -/
def argon2Hash (preimage : String) (opts : Argon2Options) : String :=
  "argon2[t=" ++ toString opts.type ++ ",l=" ++ toString opts.hashLength ++ "]$" ++ preimage

/-- Line 135: the identity-hash preimage
`` `${sig}###${token}###${sid}` `` (inputs already rendered to strings). -/
def preimageUID (sig token sid : String) : String :=
  sig ++ "###" ++ token ++ "###" ++ sid

/-- Lines 116-140: the per-request Twilio context object `t`, with fields in
JS insertion order; `receivedOn` is the decimal rendering of
`new Date() / 1000` (its numeric value is opaque to the claims). -/
structure TwilioCtx where
  receivedOn : String
  TwilioSignature : Option String
  TwilioIdempotencyToken : Option String
  requestBody : RequestBody
  webhookEndpoint : String
  isAuthenticTwilioResponse : Bool
  requestUID : String
deriving DecidableEq, Repr

/-- Lines 116-140: assembly of the context `t` from the request, the
configuration and the arrival timestamp, including the verifier's verdict
and the argon2 identity hash. -/
def buildCtx (cfg : Config) (now : String) (req : InboundRequest) : TwilioCtx :=
  let sig := headerLookup req.headers "x-twilio-signature"
  let tok := headerLookup req.headers "i-twilio-idempotency-token"
  { receivedOn := now
    TwilioSignature := sig
    TwilioIdempotencyToken := tok
    requestBody := req.body
    webhookEndpoint := cfg.WEBHOOK_ENDPOINT
    isAuthenticTwilioResponse :=
      validateRequest cfg.TWILIO_AUTH_TOKEN sig cfg.WEBHOOK_ENDPOINT req.body
    requestUID :=
      argon2Hash (preimageUID (optStr sig) (optStr tok) req.body.SmsMessageSid)
        { type := 2, hashLength := 384 } }

/-- One hexadecimal digit (lowercase), for JSON `\uXXXX` escapes. -/
def hexDigit (n : Nat) : Char :=
  if n < 10 then Char.ofNat (48 + n) else Char.ofNat (87 + n % 16)

/-- Four-hex-digit rendering of a code point below 0x10000. -/
def hex4 (n : Nat) : String :=
  String.mk [hexDigit (n / 4096 % 16), hexDigit (n / 256 % 16),
             hexDigit (n / 16 % 16), hexDigit (n % 16)]

/-- JSON escaping of one character, per `JSON.stringify`. -/
def jsonEscapeChar (c : Char) : String :=
  if c = '"' then "\\\""
  else if c = '\\' then "\\\\"
  else if c = '\n' then "\\n"
  else if c = '\r' then "\\r"
  else if c = '\t' then "\\t"
  else if c = Char.ofNat 8 then "\\b"
  else if c = Char.ofNat 12 then "\\f"
  else if c.toNat < 32 then "\\u" ++ hex4 c.toNat
  else String.singleton c

/-- `JSON.stringify` of a string value: quoted, with escapes. -/
def jsonString (s : String) : String :=
  "\"" ++ String.join (s.data.map jsonEscapeChar) ++ "\""

/-- `JSON.stringify` of the parsed form body (the six consumed fields, in
the order of the `RequestBody` model). -/
def stringifyBody (b : RequestBody) : String :=
  "\x7b\"SmsMessageSid\":" ++ jsonString b.SmsMessageSid
    ++ ",\"AccountSid\":" ++ jsonString b.AccountSid
    ++ ",\"ApiVersion\":" ++ jsonString b.ApiVersion
    ++ ",\"From\":" ++ jsonString b.From
    ++ ",\"To\":" ++ jsonString b.To
    ++ ",\"Body\":" ++ jsonString b.Body ++ "\x7d"

/-- A `,"key":"value"` JSON member for a possibly-`undefined` field:
`JSON.stringify` omits object keys whose value is `undefined`. -/
def jsonOptMember (key : String) : Option String → String
  | some v => ",\"" ++ key ++ "\":" ++ jsonString v
  | none => ""

/-- Line 89: `JSON.stringify(t)` — serialization of the finalized context,
keys in JS insertion order (`receivedOn` is a bare JSON number). -/
def stringifyCtx (t : TwilioCtx) : String :=
  "\x7b\"receivedOn\":" ++ t.receivedOn
    ++ jsonOptMember "TwilioSignature" t.TwilioSignature
    ++ jsonOptMember "TwilioIdempotencyToken" t.TwilioIdempotencyToken
    ++ ",\"requestBody\":" ++ stringifyBody t.requestBody
    ++ ",\"webhookEndpoint\":" ++ jsonString t.webhookEndpoint
    ++ ",\"isAuthenticTwilioResponse\":"
    ++ (if t.isAuthenticTwilioResponse then "true" else "false")
    ++ ",\"requestUID\":" ++ jsonString t.requestUID ++ "\x7d"

/-- A row of the `twilio_messages` audit table (lines 27-37); all columns
`NOT NULL`, no primary key or uniqueness constraint. `is_authentic_request`
holds the JS numeric coercion `+bool`. -/
structure TwilioMessagesRow where
  received_on : String
  twilio_signature : String
  twilio_idempotency_token : String
  twilio_sms_message_sid : String
  twilio_account_sid : String
  twilio_api_version : String
  webhook_endpoint : String
  is_authentic_request : Int
  raw_request : String
deriving DecidableEq, Repr

/-- A row of the `sms` normalized table (lines 42-48). -/
structure SmsRow where
  hash_id : String
  sender : String
  receiver : String
  body : String
  received_on : String
deriving DecidableEq, Repr

/-- The database: the two tables created at startup, each an append-only
sequence of rows (no uniqueness or primary-key constraint on either). -/
structure DB where
  twilio_messages : List TwilioMessagesRow
  sms : List SmsRow
deriving DecidableEq, Repr

/-- Line 88: JS unary-plus coercion of the verdict boolean to the stored
integer (`+true = 1`, `+false = 0`). -/
def boolToInt (b : Bool) : Int :=
  if b then 1 else 0

/-- Lines 80-90: the bound parameters of `twilioRequestInsertStatement.run`.
Binding a JS `undefined` (missing header) fails the statement, so the row
only materializes when signature and idempotency token are present. -/
def twilioRequestRow (t : TwilioCtx) : Option TwilioMessagesRow := do
  let sig ← t.TwilioSignature
  let tok ← t.TwilioIdempotencyToken
  pure { received_on := t.receivedOn
         twilio_signature := sig
         twilio_idempotency_token := tok
         twilio_sms_message_sid := t.requestBody.SmsMessageSid
         twilio_account_sid := t.requestBody.AccountSid
         twilio_api_version := t.requestBody.ApiVersion
         webhook_endpoint := t.webhookEndpoint
         is_authentic_request := boolToInt t.isAuthenticTwilioResponse
         raw_request := stringifyCtx t }

/-- Lines 91-97: the bound parameters of `smsInsertStatement.run`. -/
def smsRow (t : TwilioCtx) : SmsRow :=
  { hash_id := t.requestUID
    sender := t.requestBody.From
    receiver := t.requestBody.To
    body := t.requestBody.Body
    received_on := t.receivedOn }

/-- A fault oracle: decides whether the storage layer fails a given insert
(disk full, storage unavailable); `fun _ => false` is the fault-free run. -/
def NoFault {α : Type} : α → Bool := fun _ => false

/-- Lines 79-98: the body of the `db.transaction` function — run the audit
insert, then the normalized insert, failing on an unbindable parameter or
on an injected storage fault. An insert appends its row: the schema
declares no uniqueness or primary-key constraint, so no duplicate check is
performed. -/
def insertSMSBody (auditFault : TwilioMessagesRow → Bool) (smsFault : SmsRow → Bool)
    (t : TwilioCtx) (db : DB) : Except String DB :=
  match twilioRequestRow t with
  | none => .error "TypeError: cannot bind undefined"
  | some ar =>
    if auditFault ar then .error "audit insert failed"
    else
      let db1 : DB := { db with twilio_messages := db.twilio_messages ++ [ar] }
      let sr := smsRow t
      if smsFault sr then .error "sms insert failed"
      else .ok { db1 with sms := db1.sms ++ [sr] }

/-- Modelled from the spec: the storage engine's transaction wrapper
(`db.transaction`, external better-sqlite3) — if the wrapped function
throws, every statement it ran is rolled back and the error propagates;
otherwise its writes commit (§4.3: both inserts succeed or both are rolled
back). -/
def insertSMS (auditFault : TwilioMessagesRow → Bool) (smsFault : SmsRow → Bool)
    (t : TwilioCtx) (db : DB) : Except String DB :=
  match insertSMSBody auditFault smsFault t db with
  | .ok db' => .ok db'
  | .error e => .error e

/-- The database state visible after a transaction: the committed state on
success, the untouched pre-transaction state on rollback. -/
def visibleAfter (r : Except String DB) (db : DB) : DB :=
  match r with
  | .ok db' => db'
  | .error _ => db

/-- An HTTP reply: content type (line 109 sets `application/json`, line 153
overrides to `text/html`), status code (`none` = framework default), and
the rendered body. -/
structure Reply where
  contentType : String
  statusCode : Option Nat
  body : String
deriving DecidableEq, Repr

/-- Fastify's JSON serialization of the `{ error: msg }` objects the
handler returns. -/
def jsonError (msg : String) : String :=
  "\x7b\"error\":" ++ jsonString msg ++ "\x7d"

/-- Lines 107-165: the catch-all route handler. Given the configuration,
the arrival timestamp, storage fault oracles, the request and the database,
it produces the reply and the new database state. A storage failure
propagates out of the async handler (Fastify turns it into its default
error reply, status 500, never the success acknowledgment). -/
def handler (cfg : Config) (now : String)
    (auditFault : TwilioMessagesRow → Bool) (smsFault : SmsRow → Bool)
    (req : InboundRequest) (db : DB) : Reply × DB :=
  if isTwilioRequest req.headers then
    let t := buildCtx cfg now req
    match insertSMS auditFault smsFault t db with
    | .error e =>
      ({ contentType := "application/json", statusCode := some 500
         body := jsonError e }, db)
    | .ok db' =>
      if t.isAuthenticTwilioResponse then
        ({ contentType := "text/html", statusCode := some 200
           body := "<Response></Response>" }, db')
      else
        ({ contentType := "application/json", statusCode := some 400
           body := jsonError "Invalid Twilio request found." }, db')
  else
    ({ contentType := "application/json", statusCode := none
       body := jsonError "Not Authenticated." }, db)

/-- `s'` is `s` with exactly one character position rewritten to a
different character (the spec's "flipping a single character"). -/
def OneCharFlip (s s' : String) : Prop :=
  ∃ i c, i < s.data.length ∧ s.data[i]? ≠ some c ∧ s' = ⟨s.data.set i c⟩

/-- Rewriting position `i` of `s` to character `c`. -/
def flipCharAt (s : String) (i : Nat) (c : Char) : String :=
  ⟨s.data.set i c⟩

/- Concrete fixtures used by the witness theorems. -/

/-- A concrete parsed body (the spec's §8 scenario). -/
def sampleBody : RequestBody :=
  { SmsMessageSid := "SM123", AccountSid := "AC1", ApiVersion := "2010-04-01",
    From := "+15551234567", To := "+15557654321", Body := "hi" }

/-- A concrete configuration. -/
def sampleCfg : Config :=
  { TWILIO_AUTH_TOKEN := "AT", WEBHOOK_ENDPOINT := "https://example.com/sms" }

/-- The signature that verifies for `sampleCfg` and `sampleBody`. -/
def goodSig : String :=
  expectedTwilioSignature "AT" "https://example.com/sms" sampleBody

/-- A concrete request carrying both provider headers with a valid signature. -/
def authReq : InboundRequest :=
  { headers := [("x-twilio-signature", goodSig), ("i-twilio-idempotency-token", "tok1")]
    body := sampleBody }

/-- A concrete finalized context. -/
def sampleCtx : TwilioCtx :=
  { receivedOn := "1700000000.5", TwilioSignature := some "sigv",
    TwilioIdempotencyToken := some "tokv", requestBody := sampleBody,
    webhookEndpoint := "https://example.com/sms", isAuthenticTwilioResponse := false,
    requestUID := "uid0" }

/-- The audit row `sampleCtx` binds. -/
def sampleAuditRow : TwilioMessagesRow :=
  { received_on := "1700000000.5", twilio_signature := "sigv",
    twilio_idempotency_token := "tokv", twilio_sms_message_sid := "SM123",
    twilio_account_sid := "AC1", twilio_api_version := "2010-04-01",
    webhook_endpoint := "https://example.com/sms", is_authentic_request := 0,
    raw_request := stringifyCtx sampleCtx }

/-- The freshly created database. -/
def emptyDB : DB := { twilio_messages := [], sms := [] }

/-- A storage fault oracle that fails every normalized-row insert. -/
def smsAlwaysFault : SmsRow → Bool := fun _ => true

/- Helper lemmas shared by the claim proofs. -/

theorem set_ne_of_getElem_ne (l : List Char) (i : Nat) (c : Char)
    (h : i < l.length) (hne : l[i]? ≠ some c) : l.set i c ≠ l := by
  intro heq
  apply hne
  have h2 := List.getElem?_set_eq_of_lt c (l := l) (n := i) h
  rw [heq] at h2
  exact h2

theorem OneCharFlip.data_length {s s' : String} (h : OneCharFlip s s') :
    s.data.length = s'.data.length := by
  obtain ⟨i, c, hi, hne, rfl⟩ := h
  simp [List.length_set]

theorem OneCharFlip.ne {s s' : String} (h : OneCharFlip s s') : s' ≠ s := by
  obtain ⟨i, c, hi, hne, rfl⟩ := h
  intro he
  exact set_ne_of_getElem_ne s.data i c hi hne (congrArg String.data he)

theorem argon2Hash_inj (o : Argon2Options) (p q : String)
    (h : argon2Hash p o = argon2Hash q o) : p = q := by
  have hd := congrArg String.data h
  simp only [argon2Hash, String.data_append, List.append_assoc] at hd
  exact String.ext (List.append_cancel_left (List.append_cancel_left
    (List.append_cancel_left (List.append_cancel_left (List.append_cancel_left hd)))))

theorem preimageUID_ne_of_sig_ne (sig sig' tok sid : String)
    (hlen : sig.data.length = sig'.data.length) (hne : sig ≠ sig') :
    preimageUID sig tok sid ≠ preimageUID sig' tok sid := by
  intro h
  apply hne
  have hd := congrArg String.data h
  simp only [preimageUID, String.data_append, List.append_assoc] at hd
  exact String.ext (List.append_inj hd hlen).1

theorem append_hash_sep_inj (a : List Char) : ∀ (b r s : List Char),
    (∀ c ∈ a, c ≠ '#') → (∀ c ∈ b, c ≠ '#') →
    a ++ '#' :: r = b ++ '#' :: s → a = b ∧ r = s := by
  induction a with
  | nil =>
    intro b r s _ hb h
    cases b with
    | nil => simpa using h
    | cons d b' =>
      simp only [List.nil_append, List.cons_append, List.cons.injEq] at h
      exact absurd h.1.symm (hb d (by simp))
  | cons c a' ih =>
    intro b r s ha hb h
    cases b with
    | nil =>
      simp only [List.nil_append, List.cons_append, List.cons.injEq] at h
      exact absurd h.1 (ha c (by simp))
    | cons d b' =>
      simp only [List.cons_append, List.cons.injEq] at h
      obtain ⟨rfl, h2⟩ := h
      obtain ⟨rfl, rfl⟩ := ih b' r s (fun x hx => ha x (by simp [hx]))
        (fun x hx => hb x (by simp [hx])) h2
      exact ⟨rfl, rfl⟩

/- Claim theorems. -/

/-- C1: the Request Identity Deriver is deterministic — the identity hash
is a function of the signature header, the idempotency-token header and the
message SID only: two requests agreeing on those three inputs get the same
`requestUID`, whatever their configuration, arrival time, remaining body
fields or remaining headers. -/
theorem requestUID_function_of_signature_token_sid
    (cfg₁ cfg₂ : Config) (now₁ now₂ : String) (req₁ req₂ : InboundRequest)
    (hsig : headerLookup req₁.headers "x-twilio-signature" =
      headerLookup req₂.headers "x-twilio-signature")
    (htok : headerLookup req₁.headers "i-twilio-idempotency-token" =
      headerLookup req₂.headers "i-twilio-idempotency-token")
    (hsid : req₁.body.SmsMessageSid = req₂.body.SmsMessageSid) :
    (buildCtx cfg₁ now₁ req₁).requestUID = (buildCtx cfg₂ now₂ req₂).requestUID := by
  simp only [buildCtx, hsig, htok, hsid]

/-- Witness for C1 at concrete inputs: identical signature, token and SID,
everything else different. -/
theorem requestUID_function_of_signature_token_sid_witness :
    (buildCtx { TWILIO_AUTH_TOKEN := "tokA", WEBHOOK_ENDPOINT := "urlA" } "11"
      { headers := [("x-twilio-signature", "sigv"), ("i-twilio-idempotency-token", "tokv")]
        body := { SmsMessageSid := "SM1", AccountSid := "ACa", ApiVersion := "va",
                  From := "fa", To := "ta", Body := "ba" } }).requestUID =
    (buildCtx { TWILIO_AUTH_TOKEN := "tokB", WEBHOOK_ENDPOINT := "urlB" } "22"
      { headers := [("x-twilio-signature", "sigv"), ("i-twilio-idempotency-token", "tokv"),
                    ("x-forwarded-for", "10.0.0.1")]
        body := { SmsMessageSid := "SM1", AccountSid := "ACb", ApiVersion := "vb",
                  From := "fb", To := "tb", Body := "bb" } }).requestUID :=
  requestUID_function_of_signature_token_sid _ _ _ _ _ _ rfl rfl rfl

/-- C2: the writer is one atomic transaction — with the audit insert
attempted and not faulted, either the normalized insert also succeeds and
both rows commit, or the normalized insert fails, the transaction surfaces
the error and the visible database is exactly the pre-transaction one
(neither row remains). -/
theorem insertSMS_atomic_rollback
    (fa : TwilioMessagesRow → Bool) (fs : SmsRow → Bool) (t : TwilioCtx) (db : DB)
    (ar : TwilioMessagesRow)
    (har : twilioRequestRow t = some ar) (hfa : fa ar = false) :
    (fs (smsRow t) = false →
      insertSMS fa fs t db =
        .ok { twilio_messages := db.twilio_messages ++ [ar], sms := db.sms ++ [smsRow t] }) ∧
    (fs (smsRow t) = true →
      insertSMS fa fs t db = .error "sms insert failed" ∧
      visibleAfter (insertSMS fa fs t db) db = db) := by
  constructor
  · intro hfs
    simp [insertSMS, insertSMSBody, har, hfa, hfs]
  · intro hfs
    have h : insertSMS fa fs t db = .error "sms insert failed" := by
      simp [insertSMS, insertSMSBody, har, hfa, hfs]
    exact ⟨h, by rw [h]; rfl⟩

/-- Witness for C2 at a concrete context: the normalized insert is forced
to fail after the audit insert ran; the transaction errors and the database
is unchanged. -/
theorem insertSMS_atomic_rollback_witness :
    insertSMS NoFault smsAlwaysFault sampleCtx emptyDB = .error "sms insert failed" ∧
    visibleAfter (insertSMS NoFault smsAlwaysFault sampleCtx emptyDB) emptyDB = emptyDB :=
  (insertSMS_atomic_rollback NoFault smsAlwaysFault sampleCtx emptyDB sampleAuditRow
    rfl rfl).2 rfl

/-- C3 counterexample: at a concrete authentic request, flipping the first
character of the claimed signature does flip the verdict from true to
false, but the computed identity hash CHANGES — the preimage at line 135
begins with the signature value — refuting the claim that the hash stays
the same. -/
theorem tamper_identity_hash_counterexample :
    OneCharFlip goodSig (flipCharAt goodSig 0 'X') ∧
    (buildCtx sampleCfg "1700000000.5" authReq).isAuthenticTwilioResponse = true ∧
    (buildCtx sampleCfg "1700000000.5"
      { headers := [("x-twilio-signature", flipCharAt goodSig 0 'X'),
                    ("i-twilio-idempotency-token", "tok1")]
        body := sampleBody }).isAuthenticTwilioResponse = false ∧
    (buildCtx sampleCfg "1700000000.5"
      { headers := [("x-twilio-signature", flipCharAt goodSig 0 'X'),
                    ("i-twilio-idempotency-token", "tok1")]
        body := sampleBody }).requestUID ≠
      (buildCtx sampleCfg "1700000000.5" authReq).requestUID :=
  ⟨⟨0, 'X', by decide, by decide, rfl⟩, by decide, by decide, by decide⟩

/-- C3 (amended): flipping a single character in the claimed signature,
holding all other inputs fixed, flips the verifier's verdict from true to
false AND changes the computed identity hash — identity derivation is
signature-header-value-based, so the hash tracks the tampered value. -/
theorem tamper_flips_verdict_and_changes_identity_hash
    (cfg : Config) (now : String) (rest : List (String × String))
    (body : RequestBody) (sig sig' : String)
    (hflip : OneCharFlip sig sig')
    (hauth : (buildCtx cfg now
      { headers := ("x-twilio-signature", sig) :: rest, body := body
      }).isAuthenticTwilioResponse = true) :
    (buildCtx cfg now
      { headers := ("x-twilio-signature", sig') :: rest, body := body
      }).isAuthenticTwilioResponse = false ∧
    (buildCtx cfg now
      { headers := ("x-twilio-signature", sig') :: rest, body := body
      }).requestUID ≠
      (buildCtx cfg now
        { headers := ("x-twilio-signature", sig) :: rest, body := body
        }).requestUID := by
  have hVal : ∀ x : String, (buildCtx cfg now
      { headers := ("x-twilio-signature", x) :: rest, body := body
      }).isAuthenticTwilioResponse =
      validateRequest cfg.TWILIO_AUTH_TOKEN (some x) cfg.WEBHOOK_ENDPOINT body :=
    fun _ => rfl
  have hUID : ∀ x : String, (buildCtx cfg now
      { headers := ("x-twilio-signature", x) :: rest, body := body
      }).requestUID =
      argon2Hash (preimageUID x
        (optStr (headerLookup rest "i-twilio-idempotency-token")) body.SmsMessageSid)
        { type := 2, hashLength := 384 } :=
    fun _ => rfl
  have hauth' : validateRequest cfg.TWILIO_AUTH_TOKEN (some sig)
      cfg.WEBHOOK_ENDPOINT body = true := (hVal sig) ▸ hauth
  have hsig_eq : sig =
      expectedTwilioSignature cfg.TWILIO_AUTH_TOKEN cfg.WEBHOOK_ENDPOINT body := by
    simpa [validateRequest] using hauth'
  constructor
  · rw [hVal sig']
    simp only [validateRequest, beq_eq_false_iff_ne, ne_eq, Option.some.injEq]
    exact fun hc => hflip.ne (hc.trans hsig_eq.symm)
  · rw [hUID sig', hUID sig]
    intro h
    exact preimageUID_ne_of_sig_ne sig' sig _ _ hflip.data_length.symm hflip.ne
      (argon2Hash_inj _ _ _ h)

/-- Witness for the amended C3 at a concrete authentic request and a
concrete one-character flip. -/
theorem tamper_flips_verdict_and_changes_identity_hash_witness :
    (buildCtx sampleCfg "1700000000.5"
      { headers := ("x-twilio-signature", flipCharAt goodSig 0 'X') ::
          [("i-twilio-idempotency-token", "tok1")]
        body := sampleBody }).isAuthenticTwilioResponse = false ∧
    (buildCtx sampleCfg "1700000000.5"
      { headers := ("x-twilio-signature", flipCharAt goodSig 0 'X') ::
          [("i-twilio-idempotency-token", "tok1")]
        body := sampleBody }).requestUID ≠
      (buildCtx sampleCfg "1700000000.5"
        { headers := ("x-twilio-signature", goodSig) ::
            [("i-twilio-idempotency-token", "tok1")]
          body := sampleBody }).requestUID :=
  tamper_flips_verdict_and_changes_identity_hash sampleCfg "1700000000.5"
    [("i-twilio-idempotency-token", "tok1")] sampleBody goodSig
    (flipCharAt goodSig 0 'X') ⟨0, 'X', by decide, by decide, rfl⟩ (by decide)

/-- C4: a request carrying both provider-namespaced headers gets exactly
one audit row and exactly one normalized row appended, whatever the
verifier's verdict, and the audit row's `is_authentic_request` column
stores 1 for a true verdict and 0 for a false one. -/
theorem handler_writes_one_audit_and_one_sms_row
    (cfg : Config) (now : String) (req : InboundRequest) (db : DB) (sig tok : String)
    (hsig : headerLookup req.headers "x-twilio-signature" = some sig)
    (htok : headerLookup req.headers "i-twilio-idempotency-token" = some tok)
    (htw : isTwilioRequest req.headers = true) :
    ∃ ar, twilioRequestRow (buildCtx cfg now req) = some ar ∧
      ar.is_authentic_request =
        (if (buildCtx cfg now req).isAuthenticTwilioResponse then 1 else 0) ∧
      (handler cfg now NoFault NoFault req db).2 =
        { twilio_messages := db.twilio_messages ++ [ar]
          sms := db.sms ++ [smsRow (buildCtx cfg now req)] } := by
  have h1 : (buildCtx cfg now req).TwilioSignature = some sig := by
    simp [buildCtx, hsig]
  have h2 : (buildCtx cfg now req).TwilioIdempotencyToken = some tok := by
    simp [buildCtx, htok]
  have hrow : twilioRequestRow (buildCtx cfg now req) = some
      { received_on := (buildCtx cfg now req).receivedOn
        twilio_signature := sig
        twilio_idempotency_token := tok
        twilio_sms_message_sid := (buildCtx cfg now req).requestBody.SmsMessageSid
        twilio_account_sid := (buildCtx cfg now req).requestBody.AccountSid
        twilio_api_version := (buildCtx cfg now req).requestBody.ApiVersion
        webhook_endpoint := (buildCtx cfg now req).webhookEndpoint
        is_authentic_request := boolToInt (buildCtx cfg now req).isAuthenticTwilioResponse
        raw_request := stringifyCtx (buildCtx cfg now req) } := by
    simp [twilioRequestRow, h1, h2]
  refine ⟨_, hrow, ?_, ?_⟩
  · simp [boolToInt]
  · have hins : insertSMS NoFault NoFault (buildCtx cfg now req) db = .ok
        { twilio_messages := db.twilio_messages ++
            [{ received_on := (buildCtx cfg now req).receivedOn
               twilio_signature := sig
               twilio_idempotency_token := tok
               twilio_sms_message_sid := (buildCtx cfg now req).requestBody.SmsMessageSid
               twilio_account_sid := (buildCtx cfg now req).requestBody.AccountSid
               twilio_api_version := (buildCtx cfg now req).requestBody.ApiVersion
               webhook_endpoint := (buildCtx cfg now req).webhookEndpoint
               is_authentic_request := boolToInt (buildCtx cfg now req).isAuthenticTwilioResponse
               raw_request := stringifyCtx (buildCtx cfg now req) }]
          sms := db.sms ++ [smsRow (buildCtx cfg now req)] } := by
      simp [insertSMS, insertSMSBody, hrow, NoFault]
    simp only [handler, htw, if_true, hins]
    cases (buildCtx cfg now req).isAuthenticTwilioResponse <;> simp

/-- Witness for C4 at a concrete request carrying both provider headers. -/
theorem handler_writes_one_audit_and_one_sms_row_witness :
    ∃ ar, twilioRequestRow (buildCtx sampleCfg "1700000000.5" authReq) = some ar ∧
      ar.is_authentic_request =
        (if (buildCtx sampleCfg "1700000000.5" authReq).isAuthenticTwilioResponse
         then 1 else 0) ∧
      (handler sampleCfg "1700000000.5" NoFault NoFault authReq emptyDB).2 =
        { twilio_messages := emptyDB.twilio_messages ++ [ar]
          sms := emptyDB.sms ++ [smsRow (buildCtx sampleCfg "1700000000.5" authReq)] } :=
  handler_writes_one_audit_and_one_sms_row sampleCfg "1700000000.5" authReq emptyDB
    goodSig "tok1" rfl rfl (by decide)

/-- C5: a request with no provider-namespaced header produces no storage
write — the returned database is exactly the incoming one — and the reply
is the JSON body `{"error":"Not Authenticated."}` at the framework-default
status, whatever the request body holds. -/
theorem no_twilio_header_no_write
    (cfg : Config) (now : String) (fa : TwilioMessagesRow → Bool) (fs : SmsRow → Bool)
    (req : InboundRequest) (db : DB)
    (h : isTwilioRequest req.headers = false) :
    handler cfg now fa fs req db =
      ({ contentType := "application/json", statusCode := none
         body := "\x7b\"error\":\"Not Authenticated.\"\x7d" }, db) := by
  have hmsg : jsonError "Not Authenticated." = "\x7b\"error\":\"Not Authenticated.\"\x7d" := by
    decide
  simp [handler, h, hmsg]

/-- A concrete request with generic headers and a non-empty body, no
provider-namespaced header. -/
def plainReq : InboundRequest :=
  { headers := [("host", "example.com"), ("content-type", "application/x-www-form-urlencoded")]
    body := sampleBody }

/-- Witness for C5 at a concrete header-free request with a full body. -/
theorem no_twilio_header_no_write_witness :
    handler sampleCfg "1700000000.5" NoFault NoFault plainReq emptyDB =
      ({ contentType := "application/json", statusCode := none
         body := "\x7b\"error\":\"Not Authenticated.\"\x7d" }, emptyDB) :=
  no_twilio_header_no_write sampleCfg "1700000000.5" NoFault NoFault plainReq emptyDB
    (by decide)

/-- C6: on the authenticated-ingestion path with the write committed, a
true verdict yields HTTP 200, content type `text/html`, body
`<Response></Response>`; a false verdict yields HTTP 400 with the JSON body
`{"error":"Invalid Twilio request found."}`. -/
theorem response_mapping
    (cfg : Config) (now : String) (fa : TwilioMessagesRow → Bool) (fs : SmsRow → Bool)
    (req : InboundRequest) (db db' : DB)
    (htw : isTwilioRequest req.headers = true)
    (hok : insertSMS fa fs (buildCtx cfg now req) db = .ok db') :
    ((buildCtx cfg now req).isAuthenticTwilioResponse = true →
      handler cfg now fa fs req db =
        ({ contentType := "text/html", statusCode := some 200
           body := "<Response></Response>" }, db')) ∧
    ((buildCtx cfg now req).isAuthenticTwilioResponse = false →
      handler cfg now fa fs req db =
        ({ contentType := "application/json", statusCode := some 400
           body := "\x7b\"error\":\"Invalid Twilio request found.\"\x7d" }, db')) := by
  have hmsg : jsonError "Invalid Twilio request found." =
      "\x7b\"error\":\"Invalid Twilio request found.\"\x7d" := by decide
  constructor <;> intro hv <;> simp [handler, htw, hok, hv, hmsg]

/-- The database state after ingesting the concrete authentic request. -/
def authDB : DB :=
  visibleAfter
    (insertSMS NoFault NoFault (buildCtx sampleCfg "1700000000.5" authReq) emptyDB)
    emptyDB

/-- Witness for C6 at the concrete authentic request: HTTP 200,
`text/html`, empty response markup. -/
theorem response_mapping_witness :
    handler sampleCfg "1700000000.5" NoFault NoFault authReq emptyDB =
      ({ contentType := "text/html", statusCode := some 200
         body := "<Response></Response>" }, authDB) :=
  (response_mapping sampleCfg "1700000000.5" NoFault NoFault authReq emptyDB authDB
    (by decide) rfl).1 (by decide)

/-- C7: inserting the same finalized context twice succeeds twice — the
schema carries no uniqueness or primary-key constraint, so no constraint
violation arises, and two identical, independent audit rows (and two
identical normalized rows) accumulate. -/
theorem duplicate_insert_succeeds
    (t : TwilioCtx) (db : DB) (ar : TwilioMessagesRow)
    (har : twilioRequestRow t = some ar) :
    insertSMS NoFault NoFault t db =
      .ok { twilio_messages := db.twilio_messages ++ [ar], sms := db.sms ++ [smsRow t] } ∧
    insertSMS NoFault NoFault t
      { twilio_messages := db.twilio_messages ++ [ar], sms := db.sms ++ [smsRow t] } =
      .ok { twilio_messages := db.twilio_messages ++ [ar, ar]
            sms := db.sms ++ [smsRow t, smsRow t] } := by
  constructor
  · simp [insertSMS, insertSMSBody, har, NoFault]
  · simp [insertSMS, insertSMSBody, har, NoFault, List.append_assoc]

/-- Witness for C7: the concrete context inserted twice into the fresh
database, yielding two identical audit rows. -/
theorem duplicate_insert_succeeds_witness :
    insertSMS NoFault NoFault sampleCtx emptyDB =
      .ok { twilio_messages := emptyDB.twilio_messages ++ [sampleAuditRow]
            sms := emptyDB.sms ++ [smsRow sampleCtx] } ∧
    insertSMS NoFault NoFault sampleCtx
      { twilio_messages := emptyDB.twilio_messages ++ [sampleAuditRow]
        sms := emptyDB.sms ++ [smsRow sampleCtx] } =
      .ok { twilio_messages := emptyDB.twilio_messages ++ [sampleAuditRow, sampleAuditRow]
            sms := emptyDB.sms ++ [smsRow sampleCtx, smsRow sampleCtx] } :=
  duplicate_insert_succeeds sampleCtx emptyDB sampleAuditRow rfl

/-- C8 counterexample: two distinct triples in which the separator `###`
occurs in no input, yet the concatenations coincide — `#` characters at the
boundaries of the inputs recombine with the separator
(`"a#"+"###"+"#b" = "a"+"###"+"##b"`). -/
theorem preimage_separator_ambiguity_counterexample :
    preimageUID "a#" "#b" "c" = preimageUID "a" "##b" "c" ∧
    strContains "a#" "###" = false ∧
    strContains "#b" "###" = false ∧
    strContains "a" "###" = false ∧
    strContains "##b" "###" = false ∧
    strContains "c" "###" = false ∧
    ("a#", "#b", "c") ≠ (("a" : String), ("##b" : String), ("c" : String)) := by
  decide

/-- C8 (amended): the preimage encoding is unambiguous whenever the
separator CHARACTER `#` occurs in neither signature nor idempotency token:
under that (stronger) condition, distinct triples concatenate to distinct
strings. -/
theorem preimageUID_injective_of_sep_free
    (s₁ t₁ m₁ s₂ t₂ m₂ : String)
    (hs₁ : '#' ∉ s₁.data) (ht₁ : '#' ∉ t₁.data)
    (hs₂ : '#' ∉ s₂.data) (ht₂ : '#' ∉ t₂.data)
    (heq : preimageUID s₁ t₁ m₁ = preimageUID s₂ t₂ m₂) :
    s₁ = s₂ ∧ t₁ = t₂ ∧ m₁ = m₂ := by
  have hd := congrArg String.data heq
  have hsep : ("###" : String).data = ['#', '#', '#'] := rfl
  simp only [preimageUID, String.data_append, List.append_assoc, hsep,
    List.cons_append, List.nil_append] at hd
  obtain ⟨h1, h2⟩ := append_hash_sep_inj s₁.data s₂.data _ _
    (fun c hc he => hs₁ (he ▸ hc)) (fun c hc he => hs₂ (he ▸ hc)) hd
  simp only [List.cons.injEq, true_and] at h2
  obtain ⟨h3, h4⟩ := append_hash_sep_inj t₁.data t₂.data _ _
    (fun c hc he => ht₁ (he ▸ hc)) (fun c hc he => ht₂ (he ▸ hc)) h2
  simp only [List.cons.injEq, true_and] at h4
  exact ⟨String.ext h1, String.ext h3, String.ext h4⟩

/-- Witness for the amended C8: concrete `#`-free signature and token (the
message SID may even contain `#`). -/
theorem preimageUID_injective_of_sep_free_witness :
    ("sigA" : String) = "sigA" ∧ ("tokB" : String) = "tokB" ∧
      ("SM#9" : String) = "SM#9" :=
  preimageUID_injective_of_sep_free "sigA" "tokB" "SM#9" "sigA" "tokB" "SM#9"
    (by decide) (by decide) (by decide) (by decide) rfl

/-- C9: the handler takes the authenticated-ingestion path exactly when
some wire header key contains `twilio` as a substring case-insensitively:
the HTTP layer hands the handler lowercased keys, and line 112-114 does a
substring match on them. -/
theorem ingestion_path_iff_ci_twilio_header (hs : List (String × String)) :
    isTwilioRequest (normalizeHeaders hs) = true ↔
      ∃ kv ∈ hs, ciContains kv.1 "twilio" = true := by
  have hlow : lowerStr "twilio" = "twilio" := rfl
  simp only [isTwilioRequest, normalizeHeaders, List.any_map, List.any_eq_true,
    Function.comp, strContains, ciContains, hlow, decide_eq_true_eq]

/-- A string-level decomposition puts the middle component's characters
inside the whole string. -/
theorem data_mid_of_decomp (pre piece post s : String) (h : s = pre ++ piece ++ post) :
    piece.data <:+: s.data :=
  ⟨pre.data, post.data, by subst h; simp [String.data_append, List.append_assoc]⟩

/-- C10: the audit row's `raw_request` is the JSON serialization of the
context taken after verdict and identity hash were assigned: it equals
`stringifyCtx` of the finalized context and textually contains both the
`isAuthenticTwilioResponse` verdict member and the `requestUID` member
(the same semi-sensitive hash stored in the `sms` table). -/
theorem raw_request_snapshot_contains_verdict_and_uid
    (cfg : Config) (now : String) (req : InboundRequest) (db : DB) (sig tok : String)
    (hsig : headerLookup req.headers "x-twilio-signature" = some sig)
    (htok : headerLookup req.headers "i-twilio-idempotency-token" = some tok)
    (htw : isTwilioRequest req.headers = true) :
    ∃ ar, twilioRequestRow (buildCtx cfg now req) = some ar ∧
      (handler cfg now NoFault NoFault req db).2.twilio_messages =
        db.twilio_messages ++ [ar] ∧
      ar.raw_request = stringifyCtx (buildCtx cfg now req) ∧
      (",\"isAuthenticTwilioResponse\":" ++
        (if (buildCtx cfg now req).isAuthenticTwilioResponse then "true" else "false")).data
        <:+: ar.raw_request.data ∧
      (",\"requestUID\":" ++ jsonString (buildCtx cfg now req).requestUID ++ "\x7d").data
        <:+: ar.raw_request.data := by
  obtain ⟨ar, hrow, _, hdb⟩ :=
    handler_writes_one_audit_and_one_sms_row cfg now req db sig tok hsig htok htw
  have h1 : (buildCtx cfg now req).TwilioSignature = some sig := by
    simp [buildCtx, hsig]
  have h2 : (buildCtx cfg now req).TwilioIdempotencyToken = some tok := by
    simp [buildCtx, htok]
  have hraw : ar.raw_request = stringifyCtx (buildCtx cfg now req) := by
    simp only [twilioRequestRow, h1, h2, Option.bind_eq_bind, Option.some_bind,
      Option.pure_def, Option.some.injEq] at hrow
    rw [← hrow]
  refine ⟨ar, hrow, by rw [hdb], hraw, ?_, ?_⟩
  · rw [hraw]
    exact data_mid_of_decomp
      ("\x7b\"receivedOn\":" ++ (buildCtx cfg now req).receivedOn
        ++ jsonOptMember "TwilioSignature" (buildCtx cfg now req).TwilioSignature
        ++ jsonOptMember "TwilioIdempotencyToken" (buildCtx cfg now req).TwilioIdempotencyToken
        ++ ",\"requestBody\":" ++ stringifyBody (buildCtx cfg now req).requestBody
        ++ ",\"webhookEndpoint\":" ++ jsonString (buildCtx cfg now req).webhookEndpoint)
      _
      (",\"requestUID\":" ++ jsonString (buildCtx cfg now req).requestUID ++ "\x7d")
      _ (by simp [stringifyCtx, String.append_assoc])
  · rw [hraw]
    have := data_mid_of_decomp
      ("\x7b\"receivedOn\":" ++ (buildCtx cfg now req).receivedOn
        ++ jsonOptMember "TwilioSignature" (buildCtx cfg now req).TwilioSignature
        ++ jsonOptMember "TwilioIdempotencyToken" (buildCtx cfg now req).TwilioIdempotencyToken
        ++ ",\"requestBody\":" ++ stringifyBody (buildCtx cfg now req).requestBody
        ++ ",\"webhookEndpoint\":" ++ jsonString (buildCtx cfg now req).webhookEndpoint
        ++ ",\"isAuthenticTwilioResponse\":"
        ++ (if (buildCtx cfg now req).isAuthenticTwilioResponse then "true" else "false"))
      (",\"requestUID\":" ++ jsonString (buildCtx cfg now req).requestUID ++ "\x7d")
      ""
      (stringifyCtx (buildCtx cfg now req))
      (by simp [stringifyCtx, String.append_assoc])
    exact this

/-- Witness for C10 at the concrete authentic request. -/
theorem raw_request_snapshot_contains_verdict_and_uid_witness :
    ∃ ar, twilioRequestRow (buildCtx sampleCfg "1700000000.5" authReq) = some ar ∧
      (handler sampleCfg "1700000000.5" NoFault NoFault authReq emptyDB).2.twilio_messages =
        emptyDB.twilio_messages ++ [ar] ∧
      ar.raw_request = stringifyCtx (buildCtx sampleCfg "1700000000.5" authReq) ∧
      (",\"isAuthenticTwilioResponse\":" ++
        (if (buildCtx sampleCfg "1700000000.5" authReq).isAuthenticTwilioResponse
         then "true" else "false")).data
        <:+: ar.raw_request.data ∧
      (",\"requestUID\":" ++
        jsonString (buildCtx sampleCfg "1700000000.5" authReq).requestUID ++ "\x7d").data
        <:+: ar.raw_request.data :=
  raw_request_snapshot_contains_verdict_and_uid sampleCfg "1700000000.5" authReq emptyDB
    goodSig "tok1" rfl rfl (by decide)

end TwilioWebhook
